import Mathlib

/-!
Shallow embedding of the quantum-circuit-simulator web application
(`app.py`).  The module-level mutable dictionary
`circuit_state = {"circuit": None, "gates": [], "qubits": 2}` is modelled
as the structure `CircuitState`; each HTTP handler becomes a pure function
from a `CircuitState` and its request data to the pair of the state after
the call (Python mutates the dictionary in place, so mutations made before
an exception persist) and an `Except` carrying either the handler's
response or the `HTTPException` it raised.

Each handler body is wrapped in `try ... except Exception as e: raise
HTTPException(500, "Failed to ...: " + str(e))`; since FastAPI's
`HTTPException` is itself an `Exception`, the 400 errors raised inside the
body are caught and rewrapped.  This is modelled by `wrapHandler` /
`rewrap`, with `strOfExc` playing the role of `str(e)`
(`"{status_code}: {detail}"`).

The qiskit `QuantumCircuit` object is modelled as `QCircuit`, a register
size plus the ordered list of operations issued on it (`.h`, `.x`, `.cx`,
`.cz`, `.measure(range(q), range(q))`, and the two composite calls made by
`load_example`).  The Aer simulator backend and the PNG rendering helper
`circuit_to_base64` are external libraries outside the embedded logic: the
sampler is passed in as a function parameter, and rendering (which only
produces an image on the success path) is abstracted away.
-/

namespace QCS

/-- One operation recorded on the qiskit circuit object: mirrors the
`circuit.h / x / cx / cz / measure` calls made by `app.py`, plus the two
composite calls made by `load_example`. -/
inductive QOp where
  | h (q : Int)
  | x (q : Int)
  | cx (c t : Int)
  | cz (c t : Int)
  | measureAll (n : Int)
  | hList (qs : List Int)
  | grover (qs : List Int)
  deriving DecidableEq

/-- Model of the qiskit `QuantumCircuit(n, n)` object: its register size
and the ordered operations applied to it. -/
structure QCircuit where
  nq : Int
  ops : List QOp
  deriving DecidableEq

/-- One entry of `circuit_state["gates"]`: the Python code stores tuples
`("H", 0)`, `("CX", 0, 1)`, `("Measure", "All")`, `("H", [0, 1])`,
`("Grover Operator", [0, 1])`. -/
inductive GateEntry where
  | g1 (name : String) (q : Int)
  | g2 (name : String) (c t : Int)
  | gAll (name : String)
  | gList (name : String) (qs : List Int)
  deriving DecidableEq

/-- The first component `g[0]` of a stored gate tuple. -/
def GateEntry.name : GateEntry → String
  | .g1 n _ => n
  | .g2 n _ _ => n
  | .gAll n => n
  | .gList n _ => n

/-- Model of the module-level dictionary
`circuit_state = {"circuit": ..., "gates": ..., "qubits": ...}`. -/
structure CircuitState where
  circuit : Option QCircuit
  gates : List GateEntry
  qubits : Int
  deriving DecidableEq

/-- The initial value `{"circuit": None, "gates": [], "qubits": 2}`. -/
def initialState : CircuitState := ⟨none, [], 2⟩

/-- Model of the pydantic `GateRequest` body of `POST /add_gate`. -/
structure GateRequest where
  gate_type : String
  target_qubit : Option Int
  control_qubit : Option Int
  qubits : Int
  deriving DecidableEq

/-- Model of `fastapi.HTTPException(status_code, detail)`. -/
structure HTTPException where
  status_code : Nat
  detail : String
  deriving DecidableEq

/-- Python `str(e)` on an `HTTPException`: `"{status_code}: {detail}"`. -/
def strOfExc (e : HTTPException) : String :=
  toString e.status_code ++ ": " ++ e.detail

/-- The `except Exception as e: raise HTTPException(500, prefix + str(e))`
block wrapping every handler body. -/
def rewrap (p : String) (e : HTTPException) : HTTPException :=
  ⟨500, p ++ strOfExc e⟩

/-- Applies the catch-all of a handler to the result of its body: a raised
`HTTPException` is caught and rewrapped as a 500; the state mutations made
before the raise persist. -/
def wrapHandler {α : Type} (p : String) (r : CircuitState × Except HTTPException α) :
    CircuitState × Except HTTPException α :=
  match r with
  | (s, .ok v) => (s, .ok v)
  | (s, .error e) => (s, .error (rewrap p e))

/-- Model of the histogram counts returned by the Aer simulator run. -/
abbrev Counts := List (String × Nat)

/-- A stand-in for the external Aer simulator used to instantiate
theorems at concrete inputs. -/
def constSampler : QCircuit → Int → Counts := fun _ _ => []

/-- Body of `GET /reset` (lines 62-71): validates `1 <= qubits <= 5`
before touching any state, then replaces circuit, gates and qubit count. -/
def reset_inner (s : CircuitState) (qubits : Int) :
    CircuitState × Except HTTPException (List GateEntry) :=
  if ¬ (1 ≤ qubits ∧ qubits ≤ 5) then
    (s, .error ⟨400, "Qubits must be between 1 and 5"⟩)
  else
    (⟨some ⟨qubits, []⟩, [], qubits⟩, .ok [])

/-- `GET /reset` with its catch-all. -/
def reset_circuit (s : CircuitState) (qubits : Int) :
    CircuitState × Except HTTPException (List GateEntry) :=
  wrapHandler "Failed to reset circuit: " (reset_inner s qubits)

/-- Body of `GET /load_example` (lines 76-105).  The register-size check
comes first; the state is then reset before the example-specific checks,
so a failed Bell or Grover check leaves the freshly reset state behind. -/
def load_example_inner (s : CircuitState) (ex : String) (qubits : Int) :
    CircuitState × Except HTTPException (List GateEntry) :=
  if ¬ (1 ≤ qubits ∧ qubits ≤ 5) then
    (s, .error ⟨400, "Qubits must be between 1 and 5"⟩)
  else
    let s1 : CircuitState := ⟨some ⟨qubits, []⟩, [], qubits⟩
    if ex = "Bell State (Entanglement)" then
      if qubits < 2 then
        (s1, .error ⟨400, "Bell State requires at least 2 qubits"⟩)
      else
        (⟨some ⟨qubits, [.h 0, .cx 0 1]⟩, [.g1 "H" 0, .g2 "CX" 0 1], qubits⟩,
         .ok [.g1 "H" 0, .g2 "CX" 0 1])
    else if ex = "Grover\x27s Algorithm (2-Qubit Search)" then
      if qubits ≠ 2 then
        (s1, .error ⟨400, "Grover\x27s example requires exactly 2 qubits"⟩)
      else
        (⟨some ⟨qubits, [.hList [0, 1], .grover [0, 1]]⟩,
          [.gList "H" [0, 1], .gList "Grover Operator" [0, 1]], qubits⟩,
         .ok [.gList "H" [0, 1], .gList "Grover Operator" [0, 1]])
    else
      (s1, .error ⟨400, "Invalid example"⟩)

/-- `GET /load_example` with its catch-all. -/
def load_example (s : CircuitState) (ex : String) (qubits : Int) :
    CircuitState × Except HTTPException (List GateEntry) :=
  wrapHandler "Failed to load example: " (load_example_inner s ex qubits)

/-- The gate names accepted by `add_gate` (line 119). -/
def validGateTypes : List String :=
  ["H (Hadamard)", "X (Pauli-X)", "CX (CNOT)", "CZ (Controlled-Z)", "Measure"]

/-- The two-qubit gate names (line 125). -/
def controlledGateTypes : List String := ["CX (CNOT)", "CZ (Controlled-Z)"]

/-- Python `q is not None and 0 <= q < n`, the positive form of the qubit
argument checks on lines 123 and 126. -/
def qubitInRange : Option Int → Int → Bool
  | none, _ => false
  | some v, n => decide (0 ≤ v) && decide (v < n)

/-- Unwraps a validated qubit argument: on every path where this is used
the preceding validation guarantees the `Option` is `some`. -/
def getQ (o : Option Int) : Int := o.getD 0

/-- Lines 114-117 of `add_gate`: if no circuit exists or the stored qubit
count differs from the request's, the state is replaced by a fresh empty
circuit of the requested size - with no range validation on the size. -/
def recreate_if_needed (s : CircuitState) (q : Int) : CircuitState :=
  if s.circuit.isNone ∨ s.qubits ≠ q then ⟨some ⟨q, []⟩, [], q⟩ else s

/-- Lines 131-145 of `add_gate`: dispatch on the gate name, append the
operation to the circuit object and the tuple to the gates list.  An
unmatched name falls through leaving the state as is (unreachable after
validation, as in the Python `if/elif` chain). -/
def apply_gate (s1 : CircuitState) (req : GateRequest) : CircuitState :=
  let c := s1.circuit.getD ⟨req.qubits, []⟩
  if req.gate_type = "H (Hadamard)" then
    { s1 with circuit := some ⟨c.nq, c.ops ++ [.h (getQ req.target_qubit)]⟩,
              gates := s1.gates ++ [.g1 "H" (getQ req.target_qubit)] }
  else if req.gate_type = "X (Pauli-X)" then
    { s1 with circuit := some ⟨c.nq, c.ops ++ [.x (getQ req.target_qubit)]⟩,
              gates := s1.gates ++ [.g1 "X" (getQ req.target_qubit)] }
  else if req.gate_type = "CX (CNOT)" then
    { s1 with circuit := some ⟨c.nq, c.ops ++ [.cx (getQ req.control_qubit) (getQ req.target_qubit)]⟩,
              gates := s1.gates ++ [.g2 "CX" (getQ req.control_qubit) (getQ req.target_qubit)] }
  else if req.gate_type = "CZ (Controlled-Z)" then
    { s1 with circuit := some ⟨c.nq, c.ops ++ [.cz (getQ req.control_qubit) (getQ req.target_qubit)]⟩,
              gates := s1.gates ++ [.g2 "CZ" (getQ req.control_qubit) (getQ req.target_qubit)] }
  else if req.gate_type = "Measure" then
    { s1 with circuit := some ⟨c.nq, c.ops ++ [.measureAll req.qubits]⟩,
              gates := s1.gates ++ [.gAll "Measure"] }
  else s1

/-- Lines 119-149 of `add_gate`, after the possible re-creation: the
validation chain in source order, then the gate application. -/
def add_gate_validated (s1 : CircuitState) (req : GateRequest) :
    CircuitState × Except HTTPException (List GateEntry) :=
  if req.gate_type ∉ validGateTypes then
    (s1, .error ⟨400, "Invalid gate type"⟩)
  else if req.gate_type ≠ "Measure" ∧ ¬ qubitInRange req.target_qubit req.qubits then
    (s1, .error ⟨400, "Invalid target qubit"⟩)
  else if req.gate_type ≠ "Measure" ∧ req.gate_type ∈ controlledGateTypes ∧
      ¬ qubitInRange req.control_qubit req.qubits then
    (s1, .error ⟨400, "Invalid control qubit"⟩)
  else if req.gate_type ≠ "Measure" ∧ req.gate_type ∈ controlledGateTypes ∧
      req.control_qubit = req.target_qubit then
    (s1, .error ⟨400, "Control and target qubits must be different"⟩)
  else
    let s2 := apply_gate s1 req
    (s2, .ok s2.gates)

/-- Body of `POST /add_gate` (lines 110-149): re-creation happens before
validation, so a request with a differing qubit count clears the stored
state even when the gate itself is then rejected. -/
def add_gate_inner (s : CircuitState) (req : GateRequest) :
    CircuitState × Except HTTPException (List GateEntry) :=
  add_gate_validated (recreate_if_needed s req.qubits) req

/-- `POST /add_gate` with its catch-all. -/
def add_gate (s : CircuitState) (req : GateRequest) :
    CircuitState × Except HTTPException (List GateEntry) :=
  wrapHandler "Failed to add gate: " (add_gate_inner s req)

/-- Body of `GET /simulate` (lines 154-175): shots check, circuit check,
then the measure-if-absent step which mutates the stored state, then the
simulator run (abstracted as `sampler`). -/
def simulate_inner (sampler : QCircuit → Int → Counts) (s : CircuitState) (shots : Int) :
    CircuitState × Except HTTPException Counts :=
  if ¬ (100 ≤ shots ∧ shots ≤ 10000) then
    (s, .error ⟨400, "Shots must be between 100 and 10000"⟩)
  else
    match s.circuit with
    | none => (s, .error ⟨400, "No circuit defined"⟩)
    | some c =>
      if "Measure" ∉ s.gates.map GateEntry.name then
        let c2 : QCircuit := ⟨c.nq, c.ops ++ [.measureAll s.qubits]⟩
        (⟨some c2, s.gates ++ [.gAll "Measure"], s.qubits⟩, .ok (sampler c2 shots))
      else
        (s, .ok (sampler c shots))

/-- `GET /simulate` with its catch-all. -/
def simulate_circuit (sampler : QCircuit → Int → Counts) (s : CircuitState) (shots : Int) :
    CircuitState × Except HTTPException Counts :=
  wrapHandler "Failed to simulate circuit: " (simulate_inner sampler s shots)

/-! Helper lemmas about the handler building blocks. -/

lemma wrapHandler_fst {α : Type} (p : String) (r : CircuitState × Except HTTPException α) :
    (wrapHandler p r).1 = r.1 := by
  rcases r with ⟨s, r⟩
  cases r <;> rfl

lemma wrapHandler_ok {α : Type} (p : String) (s : CircuitState) (v : α) :
    wrapHandler p (s, Except.ok v) = (s, Except.ok v) := rfl

lemma wrapHandler_error {α : Type} (p : String) (s : CircuitState) (e : HTTPException) :
    wrapHandler p ((s, Except.error e) : CircuitState × Except HTTPException α) =
      (s, Except.error (rewrap p e)) := rfl

lemma recreate_qubits (s : CircuitState) (q : Int) :
    (recreate_if_needed s q).qubits = q := by
  unfold recreate_if_needed
  split
  · rfl
  · rename_i h
    push_neg at h
    exact h.2

lemma recreate_id (s : CircuitState) (q : Int) (c0 : QCircuit)
    (hc : s.circuit = some c0) (hq : s.qubits = q) :
    recreate_if_needed s q = s := by
  unfold recreate_if_needed
  rw [if_neg]
  push_neg
  exact ⟨by simp [hc], hq⟩

lemma recreate_ne (s : CircuitState) (q : Int) (h : s.qubits ≠ q) :
    recreate_if_needed s q = ⟨some ⟨q, []⟩, [], q⟩ := by
  unfold recreate_if_needed
  rw [if_pos (Or.inr h)]

lemma recreate_fresh (q : Int) :
    recreate_if_needed ⟨some ⟨q, []⟩, [], q⟩ q = ⟨some ⟨q, []⟩, [], q⟩ := by
  unfold recreate_if_needed
  rw [if_neg]
  push_neg
  exact ⟨by simp, rfl⟩

lemma apply_gate_qubits (s1 : CircuitState) (req : GateRequest) :
    (apply_gate s1 req).qubits = s1.qubits := by
  unfold apply_gate
  repeat' split
  all_goals rfl

lemma add_gate_validated_fst_qubits (s1 : CircuitState) (req : GateRequest) :
    (add_gate_validated s1 req).1.qubits = s1.qubits := by
  unfold add_gate_validated
  repeat' split
  all_goals first | rfl | exact apply_gate_qubits s1 req

lemma add_gate_fst_qubits (s : CircuitState) (req : GateRequest) :
    (add_gate s req).1.qubits = req.qubits := by
  unfold add_gate add_gate_inner
  rw [wrapHandler_fst, add_gate_validated_fst_qubits, recreate_qubits]

lemma simulate_inner_shots_bad (sampler : QCircuit → Int → Counts) (s : CircuitState)
    (shots : Int) (h : ¬ (100 ≤ shots ∧ shots ≤ 10000)) :
    simulate_inner sampler s shots =
      (s, Except.error ⟨400, "Shots must be between 100 and 10000"⟩) := by
  unfold simulate_inner
  rw [if_pos h]

lemma simulate_inner_no_circuit (sampler : QCircuit → Int → Counts) (s : CircuitState)
    (shots : Int) (h1 : 100 ≤ shots) (h2 : shots ≤ 10000) (hc : s.circuit = none) :
    simulate_inner sampler s shots = (s, Except.error ⟨400, "No circuit defined"⟩) := by
  unfold simulate_inner
  rw [if_neg (not_not_intro ⟨h1, h2⟩)]
  simp only [hc]

lemma simulate_inner_no_measure (sampler : QCircuit → Int → Counts) (s : CircuitState)
    (shots : Int) (c : QCircuit)
    (h1 : 100 ≤ shots) (h2 : shots ≤ 10000) (hc : s.circuit = some c)
    (hm : "Measure" ∉ s.gates.map GateEntry.name) :
    simulate_inner sampler s shots =
      (⟨some ⟨c.nq, c.ops ++ [QOp.measureAll s.qubits]⟩,
        s.gates ++ [GateEntry.gAll "Measure"], s.qubits⟩,
       Except.ok (sampler ⟨c.nq, c.ops ++ [QOp.measureAll s.qubits]⟩ shots)) := by
  unfold simulate_inner
  rw [if_neg (not_not_intro ⟨h1, h2⟩)]
  simp only [hc]
  rw [if_pos hm]

lemma simulate_inner_with_measure (sampler : QCircuit → Int → Counts) (s : CircuitState)
    (shots : Int) (c : QCircuit)
    (h1 : 100 ≤ shots) (h2 : shots ≤ 10000) (hc : s.circuit = some c)
    (hm : "Measure" ∈ s.gates.map GateEntry.name) :
    simulate_inner sampler s shots = (s, Except.ok (sampler c shots)) := by
  unfold simulate_inner
  rw [if_neg (not_not_intro ⟨h1, h2⟩)]
  simp only [hc]
  rw [if_neg (not_not_intro hm)]

/-! Claim theorems. -/

/-- C1 counterexample: a freshly reset circuit has an empty gate sequence,
yet `simulate_circuit` succeeds and returns a histogram instead of failing
(there is no `EmptyCircuitError` anywhere in the code). -/
theorem C1_counterexample :
    (reset_circuit initialState 2).1.gates = [] ∧
    (simulate_circuit constSampler (reset_circuit initialState 2).1 100).2 =
      Except.ok [] := by
  exact ⟨rfl, rfl⟩

/-- C1 (amended): `simulate` on a circuit with an empty gate sequence does
not fail with any empty-circuit error - no such check or error exists.
With shots in [100, 10000] and a circuit object defined, it appends the
implicit Measure and returns the sampled histogram. -/
theorem C1_empty_circuit_simulates (sampler : QCircuit → Int → Counts)
    (s : CircuitState) (shots : Int) (c : QCircuit)
    (h1 : 100 ≤ shots) (h2 : shots ≤ 10000)
    (hc : s.circuit = some c) (hg : s.gates = []) :
    simulate_circuit sampler s shots =
      (⟨some ⟨c.nq, c.ops ++ [QOp.measureAll s.qubits]⟩,
        [GateEntry.gAll "Measure"], s.qubits⟩,
       Except.ok (sampler ⟨c.nq, c.ops ++ [QOp.measureAll s.qubits]⟩ shots)) := by
  unfold simulate_circuit
  rw [simulate_inner_no_measure sampler s shots c h1 h2 hc (by rw [hg]; simp), hg]
  rfl

/-- C1 witness: the amended theorem evaluated on a concrete one-qubit
circuit with an empty gate sequence. -/
theorem C1_witness :
    simulate_circuit constSampler ⟨some ⟨1, []⟩, [], 1⟩ 100 =
      (⟨some ⟨1, [QOp.measureAll 1]⟩, [GateEntry.gAll "Measure"], 1⟩, Except.ok []) :=
  C1_empty_circuit_simulates constSampler ⟨some ⟨1, []⟩, [], 1⟩ 100 ⟨1, []⟩
    (by decide) (by decide) rfl rfl

/-- C5 counterexample: the shot-count sub-step raises a 400 error, but the
catch-all in `simulate_circuit` rewraps it, so the caller receives a
different 500 error, not the sub-step error unchanged. -/
theorem C5_counterexample :
    simulate_inner constSampler initialState 0 =
      (initialState, Except.error ⟨400, "Shots must be between 100 and 10000"⟩) ∧
    simulate_circuit constSampler initialState 0 =
      (initialState, Except.error ⟨500,
        "Failed to simulate circuit: 400: Shots must be between 100 and 10000"⟩) ∧
    (⟨400, "Shots must be between 100 and 10000"⟩ : HTTPException) ≠
      ⟨500, "Failed to simulate circuit: 400: Shots must be between 100 and 10000"⟩ := by
  refine ⟨rfl, rfl, by decide⟩

/-- C5 (amended): `simulate_circuit` catches every error raised by its own
body and rewraps it as a 500 whose detail embeds the original error text;
the sub-step error therefore never reaches the caller unchanged. -/
theorem C5_rewraps_errors (sampler : QCircuit → Int → Counts) (s : CircuitState)
    (shots : Int) (s2 : CircuitState) (e : HTTPException)
    (h : simulate_inner sampler s shots = (s2, Except.error e)) :
    simulate_circuit sampler s shots =
      (s2, Except.error ⟨500, "Failed to simulate circuit: " ++ strOfExc e⟩) := by
  unfold simulate_circuit
  rw [h]
  rfl

/-- C5 witness: the rewrap theorem applied to the concrete failing shot
count 0. -/
theorem C5_witness :
    simulate_circuit constSampler initialState 0 =
      (initialState, Except.error ⟨500,
        "Failed to simulate circuit: " ++
          strOfExc ⟨400, "Shots must be between 100 and 10000"⟩⟩) :=
  C5_rewraps_errors constSampler initialState 0 initialState
    ⟨400, "Shots must be between 100 and 10000"⟩ rfl

/-- C6: shot counts outside [100, 10000] (hence every value below 1) fail
before any simulation work is done - the state comes back untouched and
the error carries the shot-count message; for shots inside the range the
shot-count check passes: the only error that can then surface is the
no-circuit error. -/
theorem C6_shot_validation :
    (∀ (sampler : QCircuit → Int → Counts) (s : CircuitState) (shots : Int),
      ¬ (100 ≤ shots ∧ shots ≤ 10000) →
      simulate_circuit sampler s shots =
        (s, Except.error (rewrap "Failed to simulate circuit: "
          ⟨400, "Shots must be between 100 and 10000"⟩))) ∧
    (∀ (sampler : QCircuit → Int → Counts) (s : CircuitState) (shots : Int)
      (e : HTTPException), 100 ≤ shots → shots ≤ 10000 →
      (simulate_circuit sampler s shots).2 = Except.error e →
      e = rewrap "Failed to simulate circuit: " ⟨400, "No circuit defined"⟩) := by
  constructor
  · intro sampler s shots h
    unfold simulate_circuit
    rw [simulate_inner_shots_bad sampler s shots h]
    rfl
  · intro sampler s shots e h1 h2 he
    unfold simulate_circuit at he
    rcases hc : s.circuit with _ | c
    · rw [simulate_inner_no_circuit sampler s shots h1 h2 hc, wrapHandler_error] at he
      simp only [Except.error.injEq] at he
      exact he.symm
    · by_cases hm : "Measure" ∈ s.gates.map GateEntry.name
      · rw [simulate_inner_with_measure sampler s shots c h1 h2 hc hm,
          wrapHandler_ok] at he
        simp at he
      · rw [simulate_inner_no_measure sampler s shots c h1 h2 hc hm,
          wrapHandler_ok] at he
        simp at he

/-- C6 witness: the validation theorem evaluated at the concrete shot
counts 0 (rejected before any work) and 500 (accepted by the check, the
only remaining failure being the no-circuit error of the initial state). -/
theorem C6_witness :
    simulate_circuit constSampler initialState 0 =
      (initialState, Except.error (rewrap "Failed to simulate circuit: "
        ⟨400, "Shots must be between 100 and 10000"⟩)) ∧
    rewrap "Failed to simulate circuit: " ⟨400, "No circuit defined"⟩ =
      rewrap "Failed to simulate circuit: " ⟨400, "No circuit defined"⟩ := by
  constructor
  · exact C6_shot_validation.1 constSampler initialState 0 (by decide)
  · exact (C6_shot_validation.2 constSampler initialState 500
      (rewrap "Failed to simulate circuit: " ⟨400, "No circuit defined"⟩)
      (by decide) (by decide) rfl).symm

/-- C4 counterexample: simulating a circuit whose gate list is `[("H", 0)]`
appends the implicit Measure to the stored gate sequence itself - the
stored sequence after the call differs from the one before it. -/
theorem C4_counterexample :
    (simulate_circuit constSampler
        ⟨some ⟨1, [QOp.h 0]⟩, [GateEntry.g1 "H" 0], 1⟩ 100).1.gates =
      [GateEntry.g1 "H" 0, GateEntry.gAll "Measure"] ∧
    [GateEntry.g1 "H" 0, GateEntry.gAll "Measure"] ≠ [GateEntry.g1 "H" 0] := by
  exact ⟨rfl, by decide⟩

/-- C4 (amended): `simulate` does mutate the input circuit: when no Measure
is present it appends one to the stored gate sequence and to the stored
circuit object, and that mutation persists after the call - there is no
local working copy. -/
theorem C4_simulate_mutates (sampler : QCircuit → Int → Counts) (s : CircuitState)
    (shots : Int) (c : QCircuit)
    (h1 : 100 ≤ shots) (h2 : shots ≤ 10000) (hc : s.circuit = some c)
    (hm : "Measure" ∉ s.gates.map GateEntry.name) :
    (simulate_circuit sampler s shots).1.gates = s.gates ++ [GateEntry.gAll "Measure"] ∧
    (simulate_circuit sampler s shots).1.gates ≠ s.gates ∧
    (simulate_circuit sampler s shots).1.circuit =
      some ⟨c.nq, c.ops ++ [QOp.measureAll s.qubits]⟩ := by
  unfold simulate_circuit
  rw [simulate_inner_no_measure sampler s shots c h1 h2 hc hm, wrapHandler_ok]
  refine ⟨rfl, ?_, rfl⟩
  intro hEq
  have hlen := congrArg List.length hEq
  simp at hlen

/-- C4 witness: the mutation theorem evaluated on a concrete one-qubit
circuit holding a single H gate. -/
theorem C4_witness :
    (simulate_circuit constSampler
        ⟨some ⟨1, [QOp.h 0]⟩, [GateEntry.g1 "H" 0], 1⟩ 100).1.gates =
      [GateEntry.g1 "H" 0] ++ [GateEntry.gAll "Measure"] ∧
    (simulate_circuit constSampler
        ⟨some ⟨1, [QOp.h 0]⟩, [GateEntry.g1 "H" 0], 1⟩ 100).1.gates ≠
      [GateEntry.g1 "H" 0] ∧
    (simulate_circuit constSampler
        ⟨some ⟨1, [QOp.h 0]⟩, [GateEntry.g1 "H" 0], 1⟩ 100).1.circuit =
      some ⟨1, [QOp.h 0] ++ [QOp.measureAll 1]⟩ :=
  C4_simulate_mutates constSampler ⟨some ⟨1, [QOp.h 0]⟩, [GateEntry.g1 "H" 0], 1⟩ 100
    ⟨1, [QOp.h 0]⟩ (by decide) (by decide) rfl (by decide)

/-- C7: when the stored gate sequence holds no Measure, `simulate` appends
exactly one Measure covering all qubits at the end of the sequence and at
the end of the circuit object before sampling, so the evaluated sequence
ends with a full-register measurement; when a Measure is already present,
nothing is added and the state passes through unchanged. -/
theorem C7_implicit_measure (sampler : QCircuit → Int → Counts) (s : CircuitState)
    (shots : Int) (c : QCircuit)
    (h1 : 100 ≤ shots) (h2 : shots ≤ 10000) (hc : s.circuit = some c) :
    ("Measure" ∉ s.gates.map GateEntry.name →
      simulate_circuit sampler s shots =
        (⟨some ⟨c.nq, c.ops ++ [QOp.measureAll s.qubits]⟩,
          s.gates ++ [GateEntry.gAll "Measure"], s.qubits⟩,
         Except.ok (sampler ⟨c.nq, c.ops ++ [QOp.measureAll s.qubits]⟩ shots))) ∧
    ("Measure" ∈ s.gates.map GateEntry.name →
      simulate_circuit sampler s shots = (s, Except.ok (sampler c shots))) := by
  constructor
  · intro hm
    unfold simulate_circuit
    rw [simulate_inner_no_measure sampler s shots c h1 h2 hc hm, wrapHandler_ok]
  · intro hm
    unfold simulate_circuit
    rw [simulate_inner_with_measure sampler s shots c h1 h2 hc hm, wrapHandler_ok]

/-- C7 witness: the implicit-measure theorem evaluated on a concrete
circuit without a Measure and on one that already has one. -/
theorem C7_witness :
    simulate_circuit constSampler ⟨some ⟨1, [QOp.h 0]⟩, [GateEntry.g1 "H" 0], 1⟩ 100 =
      (⟨some ⟨1, [QOp.h 0] ++ [QOp.measureAll 1]⟩,
        [GateEntry.g1 "H" 0] ++ [GateEntry.gAll "Measure"], 1⟩,
       Except.ok []) ∧
    simulate_circuit constSampler
        ⟨some ⟨1, [QOp.h 0, QOp.measureAll 1]⟩,
         [GateEntry.g1 "H" 0, GateEntry.gAll "Measure"], 1⟩ 100 =
      (⟨some ⟨1, [QOp.h 0, QOp.measureAll 1]⟩,
        [GateEntry.g1 "H" 0, GateEntry.gAll "Measure"], 1⟩, Except.ok []) := by
  constructor
  · exact (C7_implicit_measure constSampler ⟨some ⟨1, [QOp.h 0]⟩, [GateEntry.g1 "H" 0], 1⟩
      100 ⟨1, [QOp.h 0]⟩ (by decide) (by decide) rfl).1 (by decide)
  · exact (C7_implicit_measure constSampler
      ⟨some ⟨1, [QOp.h 0, QOp.measureAll 1]⟩,
       [GateEntry.g1 "H" 0, GateEntry.gAll "Measure"], 1⟩
      100 ⟨1, [QOp.h 0, QOp.measureAll 1]⟩ (by decide) (by decide) rfl).2 (by decide)

/-- C10: the implicit Measure is appended at most once: after one
successful simulate call the stored sequence contains a Measure, and a
second simulate call (any valid shot count, any sampler) leaves the stored
state completely unchanged. -/
theorem C10_measure_idempotent (f g : QCircuit → Int → Counts) (s : CircuitState)
    (shots shots2 : Int) (c : QCircuit)
    (h1 : 100 ≤ shots) (h2 : shots ≤ 10000) (h3 : 100 ≤ shots2) (h4 : shots2 ≤ 10000)
    (hc : s.circuit = some c) :
    "Measure" ∈ (simulate_circuit f s shots).1.gates.map GateEntry.name ∧
    (simulate_circuit g (simulate_circuit f s shots).1 shots2).1 =
      (simulate_circuit f s shots).1 := by
  by_cases hm : "Measure" ∈ s.gates.map GateEntry.name
  · have h5 : (simulate_circuit f s shots).1 = s := by
      unfold simulate_circuit
      rw [simulate_inner_with_measure f s shots c h1 h2 hc hm, wrapHandler_ok]
    rw [h5]
    refine ⟨hm, ?_⟩
    unfold simulate_circuit
    rw [simulate_inner_with_measure g s shots2 c h3 h4 hc hm, wrapHandler_ok]
  · have h5 : (simulate_circuit f s shots).1 =
        ⟨some ⟨c.nq, c.ops ++ [QOp.measureAll s.qubits]⟩,
         s.gates ++ [GateEntry.gAll "Measure"], s.qubits⟩ := by
      unfold simulate_circuit
      rw [simulate_inner_no_measure f s shots c h1 h2 hc hm, wrapHandler_ok]
    rw [h5]
    have hm2 : "Measure" ∈ (s.gates ++ [GateEntry.gAll "Measure"]).map GateEntry.name := by
      simp [GateEntry.name]
    constructor
    · exact hm2
    · unfold simulate_circuit
      rw [simulate_inner_with_measure g
        ⟨some ⟨c.nq, c.ops ++ [QOp.measureAll s.qubits]⟩,
         s.gates ++ [GateEntry.gAll "Measure"], s.qubits⟩ shots2
        ⟨c.nq, c.ops ++ [QOp.measureAll s.qubits]⟩ h3 h4 rfl hm2, wrapHandler_ok]

/-- C10 witness: the idempotence theorem evaluated on a concrete one-qubit
circuit simulated twice with 100 shots. -/
theorem C10_witness :
    "Measure" ∈ (simulate_circuit constSampler
      ⟨some ⟨1, [QOp.h 0]⟩, [GateEntry.g1 "H" 0], 1⟩ 100).1.gates.map GateEntry.name ∧
    (simulate_circuit constSampler
      (simulate_circuit constSampler
        ⟨some ⟨1, [QOp.h 0]⟩, [GateEntry.g1 "H" 0], 1⟩ 100).1 100).1 =
      (simulate_circuit constSampler
        ⟨some ⟨1, [QOp.h 0]⟩, [GateEntry.g1 "H" 0], 1⟩ 100).1 :=
  C10_measure_idempotent constSampler constSampler
    ⟨some ⟨1, [QOp.h 0]⟩, [GateEntry.g1 "H" 0], 1⟩ 100 100 ⟨1, [QOp.h 0]⟩
    (by decide) (by decide) (by decide) (by decide) rfl

lemma wrapHandler_error_inv {α : Type} (p : String)
    (r : CircuitState × Except HTTPException α) (e : HTTPException)
    (h : (wrapHandler p r).2 = Except.error e) :
    ∃ e0, r.2 = Except.error e0 := by
  rcases r with ⟨s, v⟩
  cases v with
  | ok v => simp [wrapHandler] at h
  | error e0 => exact ⟨e0, rfl⟩

lemma add_gate_validated_error_fst (s1 : CircuitState) (req : GateRequest)
    (e : HTTPException) :
    (add_gate_validated s1 req).2 = Except.error e →
      (add_gate_validated s1 req).1 = s1 := by
  unfold add_gate_validated
  repeat' split
  all_goals intro h
  all_goals first | rfl | simp at h

/-- C2 counterexample: an invalid gate request whose qubit count differs
from the stored one does mutate the stored state - the re-creation on
lines 114-117 runs before validation, so the failed call clears the gate
sequence instead of leaving it unchanged. -/
theorem C2_counterexample :
    add_gate ⟨some ⟨2, [QOp.h 0]⟩, [GateEntry.g1 "H" 0], 2⟩
        ⟨"H (Hadamard)", some 5, none, 3⟩ =
      (⟨some ⟨3, []⟩, [], 3⟩,
       Except.error (rewrap "Failed to add gate: " ⟨400, "Invalid target qubit"⟩)) ∧
    ([] : List GateEntry) ≠ [GateEntry.g1 "H" 0] := by
  exact ⟨rfl, by decide⟩

/-- C2 (amended): invalid gate requests fail with the specific 400 message
(rewrapped by the catch-all into a 500); when the request's qubit count
equals the stored circuit's, a failed call leaves the stored state
unchanged - but when it differs, the state has already been replaced by a
fresh empty circuit of the requested size before validation runs. -/
theorem C2_failed_append_preserves :
    (∀ (s : CircuitState) (req : GateRequest) (c0 : QCircuit) (e : HTTPException),
      s.circuit = some c0 → s.qubits = req.qubits →
      (add_gate s req).2 = Except.error e → (add_gate s req).1 = s) ∧
    (∀ (s : CircuitState) (req : GateRequest), req.gate_type ∉ validGateTypes →
      (add_gate s req).2 =
        Except.error (rewrap "Failed to add gate: " ⟨400, "Invalid gate type"⟩)) ∧
    (∀ (s : CircuitState) (req : GateRequest), req.gate_type ∈ validGateTypes →
      req.gate_type ≠ "Measure" → ¬ qubitInRange req.target_qubit req.qubits →
      (add_gate s req).2 =
        Except.error (rewrap "Failed to add gate: " ⟨400, "Invalid target qubit"⟩)) := by
  refine ⟨?_, ?_, ?_⟩
  · intro s req c0 e hc hq he
    unfold add_gate add_gate_inner at he ⊢
    rw [recreate_id s req.qubits c0 hc hq] at he ⊢
    rw [wrapHandler_fst]
    obtain ⟨e0, he0⟩ := wrapHandler_error_inv _ _ e he
    exact add_gate_validated_error_fst s req e0 he0
  · intro s req h
    unfold add_gate add_gate_inner add_gate_validated
    rw [if_pos h]
    rfl
  · intro s req h1 h2 h3
    unfold add_gate add_gate_inner add_gate_validated
    rw [if_neg (not_not_intro h1), if_pos ⟨h2, h3⟩]
    rfl

/-- C2 witness: a failed append (target out of range, matching qubit
count) at a concrete input leaves the state unchanged. -/
theorem C2_witness :
    (add_gate ⟨some ⟨2, []⟩, [], 2⟩ ⟨"H (Hadamard)", some 5, none, 2⟩).1 =
      ⟨some ⟨2, []⟩, [], 2⟩ :=
  C2_failed_append_preserves.1 ⟨some ⟨2, []⟩, [], 2⟩ ⟨"H (Hadamard)", some 5, none, 2⟩
    ⟨2, []⟩ (rewrap "Failed to add gate: " ⟨400, "Invalid target qubit"⟩) rfl rfl rfl

/-- C3 counterexample: `add_gate` with a request of 6 qubits re-creates the
circuit at size 6 without any range validation and then happily appends
the gate - a circuit outside the 1..5 range is created with no error. -/
theorem C3_counterexample :
    (add_gate initialState ⟨"H (Hadamard)", some 0, none, 6⟩).1.qubits = 6 ∧
    (add_gate initialState ⟨"H (Hadamard)", some 0, none, 6⟩).1.circuit =
      some ⟨6, [QOp.h 0]⟩ ∧
    (add_gate initialState ⟨"H (Hadamard)", some 0, none, 6⟩).2 =
      Except.ok [GateEntry.g1 "H" 0] ∧
    ¬ (1 ≤ (6 : Int) ∧ (6 : Int) ≤ 5) := by
  exact ⟨rfl, rfl, rfl, by decide⟩

/-- C3 (amended): `reset` and `load_example` reject register sizes outside
[1, 5] with the 400 message (rewrapped into a 500) and leave the state
untouched, but the implicit re-creation inside `add_gate` performs no
range check at all: the stored size always becomes the request's qubit
count, whatever it is. -/
theorem C3_register_size_validation :
    (∀ (s : CircuitState) (q : Int), ¬ (1 ≤ q ∧ q ≤ 5) →
      reset_circuit s q = (s, Except.error (rewrap "Failed to reset circuit: "
        ⟨400, "Qubits must be between 1 and 5"⟩))) ∧
    (∀ (s : CircuitState) (ex : String) (q : Int), ¬ (1 ≤ q ∧ q ≤ 5) →
      load_example s ex q = (s, Except.error (rewrap "Failed to load example: "
        ⟨400, "Qubits must be between 1 and 5"⟩))) ∧
    (∀ (s : CircuitState) (req : GateRequest),
      (add_gate s req).1.qubits = req.qubits) := by
  refine ⟨?_, ?_, ?_⟩
  · intro s q h
    unfold reset_circuit reset_inner
    rw [if_pos h]
    rfl
  · intro s ex q h
    unfold load_example load_example_inner
    rw [if_pos h]
    rfl
  · intro s req
    exact add_gate_fst_qubits s req

/-- C3 witness: rejection of size 6 in `reset`, and un-validated creation
of a size-7 circuit through `add_gate`. -/
theorem C3_witness :
    reset_circuit initialState 6 = (initialState, Except.error
      (rewrap "Failed to reset circuit: " ⟨400, "Qubits must be between 1 and 5"⟩)) ∧
    (add_gate initialState ⟨"Measure", none, none, 7⟩).1.qubits = 7 := by
  constructor
  · exact C3_register_size_validation.1 initialState 6 (by decide)
  · exact C3_register_size_validation.2.2 initialState ⟨"Measure", none, none, 7⟩

/-- C8: changing the register size never carries anything over: a request
whose qubit count differs from the stored one behaves exactly as if
starting from a brand-new empty circuit of the requested size; when the
counts match (and a circuit exists) the size is left untouched; and
`reset` with a valid size produces the fresh empty state. -/
theorem C8_resize_creates_fresh :
    (∀ (s : CircuitState) (req : GateRequest), s.qubits ≠ req.qubits →
      add_gate s req = add_gate ⟨some ⟨req.qubits, []⟩, [], req.qubits⟩ req) ∧
    (∀ (s : CircuitState) (req : GateRequest) (c0 : QCircuit),
      s.circuit = some c0 → s.qubits = req.qubits →
      (add_gate s req).1.qubits = s.qubits) ∧
    (∀ (s : CircuitState) (q : Int), 1 ≤ q → q ≤ 5 →
      reset_circuit s q = (⟨some ⟨q, []⟩, [], q⟩, Except.ok [])) := by
  refine ⟨?_, ?_, ?_⟩
  · intro s req h
    unfold add_gate add_gate_inner
    rw [recreate_ne s req.qubits h, recreate_fresh]
  · intro s req c0 hc hq
    rw [add_gate_fst_qubits]
    exact hq.symm
  · intro s q h1 h2
    unfold reset_circuit reset_inner
    rw [if_neg (not_not_intro ⟨h1, h2⟩)]
    rfl

/-- C8 witness: the resize theorem evaluated at concrete inputs - a resize
from 2 to 3 qubits, a matching-size append, and a plain reset. -/
theorem C8_witness :
    add_gate ⟨some ⟨2, []⟩, [], 2⟩ ⟨"X (Pauli-X)", some 0, none, 3⟩ =
      add_gate ⟨some ⟨3, []⟩, [], 3⟩ ⟨"X (Pauli-X)", some 0, none, 3⟩ ∧
    (add_gate ⟨some ⟨2, []⟩, [], 2⟩ ⟨"X (Pauli-X)", some 0, none, 2⟩).1.qubits = 2 ∧
    reset_circuit initialState 3 = (⟨some ⟨3, []⟩, [], 3⟩, Except.ok []) := by
  refine ⟨?_, ?_, ?_⟩
  · exact C8_resize_creates_fresh.1 ⟨some ⟨2, []⟩, [], 2⟩
      ⟨"X (Pauli-X)", some 0, none, 3⟩ (by decide)
  · exact C8_resize_creates_fresh.2.1 ⟨some ⟨2, []⟩, [], 2⟩
      ⟨"X (Pauli-X)", some 0, none, 2⟩ ⟨2, []⟩ rfl rfl
  · exact C8_resize_creates_fresh.2.2 initialState 3 (by decide) (by decide)

/-- C9: for a Measure request the target and control fields are never
consulted: the call gives identical results whatever those fields hold,
always succeeds, and appends the measure-all entry to the gate sequence
and the measure-all operation to the circuit object. -/
theorem C9_measure_ignores_qubit_args (s : CircuitState) (q : Int)
    (t c t2 c2 : Option Int) :
    add_gate s ⟨"Measure", t, c, q⟩ = add_gate s ⟨"Measure", t2, c2, q⟩ ∧
    (add_gate s ⟨"Measure", t, c, q⟩).2 =
      Except.ok ((recreate_if_needed s q).gates ++ [GateEntry.gAll "Measure"]) ∧
    (add_gate s ⟨"Measure", t, c, q⟩).1.gates =
      (recreate_if_needed s q).gates ++ [GateEntry.gAll "Measure"] ∧
    (add_gate s ⟨"Measure", t, c, q⟩).1.circuit =
      some ⟨((recreate_if_needed s q).circuit.getD ⟨q, []⟩).nq,
            ((recreate_if_needed s q).circuit.getD ⟨q, []⟩).ops ++ [QOp.measureAll q]⟩ := by
  refine ⟨rfl, rfl, rfl, rfl⟩

end QCS
